import Mathlib

/-
Shallow embedding of the force-feedback (rumble) core of
src/src/uinput/joypad_utils.hpp (namespace inputtino).

Modelling conventions:
 - time points and durations are natural numbers of milliseconds
   (the source uses std::chrono::steady_clock::time_point and
   std::chrono::milliseconds, whose representation is a signed 64-bit
   count of ms; all time values handled by the core are non-negative);
 - std::uint32_t values are Nat, reduced modulo 2^32 at every point the
   source converts into a uint32 (toU32);
 - signed C++ integer arithmetic (int / int64) is Int, with Int.tdiv for
   the truncating C++ division;
 - the kernel event stream, file descriptors and ioctl exchanges are out
   of scope in the spec; a fetched-and-decoded event is a constructor of
   the Event inductive carrying exactly the payload the source reads out
   of the corresponding kernel structure;
 - the optional on_rumble callback of BaseJoypadState is modelled by a
   Bool (present or not) plus an explicit list of the (first, second)
   argument pairs of the calls made, in order.
-/

namespace inputtino

/-- 2^32, the modulus of std::uint32_t arithmetic. -/
def U32 : Nat := 4294967296

/-- Source line 19: static constexpr int MAX_GAIN = 0xFFFF. -/
def MAX_GAIN : Nat := 65535

/-- Conversion of a signed machine integer to std::uint32_t: the value
modulo 2^32. -/
def toU32 (x : Int) : Nat := (Int.emod x (U32 : Int)).toNat

/-- std::clamp on signed ints: (v < lo) gives lo, (hi < v) gives hi,
otherwise v. -/
def std_clamp (v lo hi : Int) : Int := if v < lo then lo else if hi < v then hi else v

/-- linux ff_envelope: all four fields are __u16. -/
structure ff_envelope where
  attack_length : Nat
  attack_level : Nat
  fade_length : Nat
  fade_level : Nat
deriving DecidableEq, Repr

/-- linux ff_replay: length and delay are __u16, in milliseconds. -/
structure ff_replay where
  length : Nat
  delay : Nat
deriving DecidableEq, Repr

/-- The linux ff_effect union u, merged with the type tag the switch in
create_rumble_effect dispatches on (FF_CONSTANT / FF_PERIODIC / FF_RAMP /
FF_RUMBLE).  Levels of constant, periodic and ramp effects are signed
(__s16); the rumble magnitudes are unsigned (__u16).  Union members the
core never reads (period, offset, phase, custom data, direction, trigger)
are omitted. -/
inductive ff_effect_u where
  | ff_constant (level : Int) (envelope : ff_envelope)
  | ff_periodic (magnitude : Int) (envelope : ff_envelope)
  | ff_ramp (start_level : Int) (end_level : Int) (envelope : ff_envelope)
  | ff_rumble (strong_magnitude : Nat) (weak_magnitude : Nat)
deriving DecidableEq, Repr

/-- linux ff_effect: the fields the core reads (type and u are merged in
the field u, see ff_effect_u). -/
structure ff_effect where
  u : ff_effect_u
  id : Int
  replay : ff_replay
deriving DecidableEq, Repr

/-- Source lines 44-61.  The anonymous start / end structs holding the
per-channel uint32 magnitudes are flattened into start_weak, start_strong,
end_weak, end_strong (end is a reserved word in Lean). -/
structure ActiveRumbleEffect where
  effect_id : Int
  start_point : Nat
  end_point : Nat
  length : Nat
  envelope : ff_envelope
  start_weak : Nat
  start_strong : Nat
  end_weak : Nat
  end_strong : Nat
  gain : Int
  previous : Nat × Nat
deriving DecidableEq, Repr

/-- Source lines 63-69.  rel = end - start is computed in uint32
arithmetic (wrapping); rel * time_left / length is computed in the signed
64-bit arithmetic of the chrono representation and converted back to
uint32 on return.  The caller at lines 93-94 passes the ELAPSED time t
for this parameter (the parameter name time_left is kept from the
source). -/
def rumble_magnitude (time_left : Int) (start : Nat) (endMag : Nat) (length : Nat) : Nat :=
  let rel : Nat := toU32 ((endMag : Int) - (start : Int))
  toU32 ((start : Int) + Int.tdiv ((rel : Int) * time_left) ((length : Int)))

/-- Source lines 77-95: the body of simulate_rumble between the window
guard and the gain step.  weak and strong are the uint32 locals
initialised to 0 at line 79; the three branches are attack, fade and
sustain.  t is a signed chrono duration in the source. -/
def rumble_phase (effect : ActiveRumbleEffect) (now : Nat) : Nat × Nat :=
  let time_left : Nat := effect.end_point - now
  let t : Int := (effect.length : Int) - (time_left : Int)
  let weak : Nat := 0
  let strong : Nat := 0
  if t < (effect.envelope.attack_length : Int) then
    (toU32 (Int.tdiv ((effect.envelope.attack_level : Int) * t +
        (weak : Int) * ((effect.envelope.attack_length : Int) - t))
        ((effect.envelope.attack_length : Int))),
     toU32 (Int.tdiv ((effect.envelope.attack_level : Int) * t +
        (strong : Int) * ((effect.envelope.attack_length : Int) - t))
        ((effect.envelope.attack_length : Int))))
  else if (time_left : Int) < (effect.envelope.fade_length : Int) then
    let dt : Int := (t - (effect.length : Int)) + (effect.envelope.fade_length : Int)
    (toU32 (Int.tdiv ((effect.envelope.fade_level : Int) * dt +
        (weak : Int) * ((effect.envelope.fade_length : Int) - dt))
        ((effect.envelope.fade_length : Int))),
     toU32 (Int.tdiv ((effect.envelope.fade_level : Int) * dt +
        (strong : Int) * ((effect.envelope.fade_length : Int) - dt))
        ((effect.envelope.fade_length : Int))))
  else
    (rumble_magnitude t effect.start_weak effect.end_weak effect.length,
     rumble_magnitude t effect.start_strong effect.end_strong effect.length)

/-- Source lines 71-100.  The early (0, 0) return for a time outside
[start_point, end_point], then the phase value (rumble_phase, lines
77-95), then the gain step of lines 97-98: weak * gain is a
uint32-by-int multiplication, performed modulo 2^32, whose result is
divided by MAX_GAIN in unsigned arithmetic. -/
def simulate_rumble (effect : ActiveRumbleEffect) (now : Nat) : Nat × Nat :=
  if effect.end_point < now ∨ now < effect.start_point then (0, 0)
  else
    let ws := rumble_phase effect now
    (ws.1 * toU32 effect.gain % U32 / MAX_GAIN,
     ws.2 * toU32 effect.gain % U32 / MAX_GAIN)

/-- True exactly when evaluating simulate_rumble on this input reaches a
division whose divisor is zero: the attack branch divides by
attack_length, the fade branch by fade_length and the sustain branch
(rumble_magnitude) by length.  The branch structure mirrors
simulate_rumble. -/
def simulate_div_by_zero (effect : ActiveRumbleEffect) (now : Nat) : Bool :=
  if effect.end_point < now ∨ now < effect.start_point then false
  else
    let time_left : Nat := effect.end_point - now
    let t : Int := (effect.length : Int) - (time_left : Int)
    if t < (effect.envelope.attack_length : Int) then
      decide (effect.envelope.attack_length = 0)
    else if (time_left : Int) < (effect.envelope.fade_length : Int) then
      decide (effect.envelope.fade_length = 0)
    else
      decide (effect.length = 0)

/-- Source lines 102-143.  delay and length are clamped to [0, 32767];
the aggregate initialiser value-initialises (zeroes) the start / end
magnitudes, the envelope and previous; the switch on the effect type then
fills the magnitudes (signed levels convert to uint32, i.e. modulo 2^32)
and, for all types but FF_RUMBLE, the envelope. -/
def create_rumble_effect (effect_id : Int) (effect_gain : Int) (effect : ff_effect)
    (now : Nat) : ActiveRumbleEffect :=
  let delay : Nat := min (max effect.replay.delay 0) 32767
  let length : Nat := min (max effect.replay.length 0) 32767
  let r_effect : ActiveRumbleEffect :=
    { effect_id := effect_id
      start_point := now + delay
      end_point := now + delay + length
      length := length
      envelope := { attack_length := 0, attack_level := 0, fade_length := 0, fade_level := 0 }
      start_weak := 0
      start_strong := 0
      end_weak := 0
      end_strong := 0
      gain := effect_gain
      previous := (0, 0) }
  match effect.u with
  | .ff_constant level envelope =>
      { r_effect with
        start_weak := toU32 level, start_strong := toU32 level,
        end_weak := toU32 level, end_strong := toU32 level,
        envelope := envelope }
  | .ff_periodic magnitude envelope =>
      { r_effect with
        start_weak := toU32 magnitude, start_strong := toU32 magnitude,
        end_weak := toU32 magnitude, end_strong := toU32 magnitude,
        envelope := envelope }
  | .ff_ramp start_level end_level envelope =>
      { r_effect with
        start_weak := toU32 start_level, start_strong := toU32 start_level,
        end_weak := toU32 end_level, end_strong := toU32 end_level,
        envelope := envelope }
  | .ff_rumble strong_magnitude weak_magnitude =>
      { r_effect with
        start_weak := weak_magnitude, start_strong := strong_magnitude,
        end_weak := weak_magnitude, end_strong := strong_magnitude }

/-- Lookup in the std::map of uploaded effects (source line 171),
modelled as an association list with unique keys. -/
def map_find (m : List (Int × ff_effect)) (k : Int) : Option ff_effect :=
  match m with
  | [] => none
  | (k', v) :: rest => if k' = k then some v else map_find rest k

/-- std::map::insert_or_assign: replace the mapping in place when the key
is present, append it otherwise. -/
def map_insert_or_assign (m : List (Int × ff_effect)) (k : Int) (v : ff_effect) :
    List (Int × ff_effect) :=
  match m with
  | [] => [(k, v)]
  | (k', v') :: rest =>
      if k' = k then (k, v) :: rest else (k', v') :: map_insert_or_assign rest k v

/-- A fetched and decoded kernel event, as dispatched by the chain of
branches at source lines 197-230.  ff_upload carries the ff_effect the
source reads back through the UI_BEGIN_FF_UPLOAD ioctl; ff_erase carries
the target effect id read through UI_BEGIN_FF_ERASE; ff_gain is EV_FF
with code FF_GAIN; ff is any other EV_FF event (code = effect id,
value nonzero to activate, zero to deactivate); led is EV_LED. -/
inductive Event where
  | ff_upload (effect : ff_effect)
  | ff_erase (effect_id : Int)
  | ff_gain (value : Int)
  | ff (effect_id : Int) (value : Int)
  | led
deriving DecidableEq, Repr

/-- The mutable state owned by the event_listener loop: the local map of
uploaded effects (line 171), the global gain (line 174) and the running
effects (line 177). -/
structure ListenerState where
  ff_effects : List (Int × ff_effect)
  current_gain : Int
  active_effects : List ActiveRumbleEffect
deriving DecidableEq, Repr

/-- The state the loop starts from (lines 171-177): empty store, gain
MAX_GAIN, no active effects. -/
def initial_state : ListenerState :=
  { ff_effects := [], current_gain := (MAX_GAIN : Int), active_effects := [] }

/-- Source lines 179-190: erase-remove over active_effects.  For each
element, the predicate wrapper evaluates filter_fn once and, when the
element is to be removed and the on_rumble callback is present, calls the
callback with (0, 0).  Returns the surviving effects (in order) and the
argument pairs of the calls made (in order). -/
def remove_effects (filter_fn : ActiveRumbleEffect → Bool) (on_rumble : Bool) :
    List ActiveRumbleEffect → List ActiveRumbleEffect × List (Nat × Nat)
  | [] => ([], [])
  | effect :: rest =>
      let r := remove_effects filter_fn on_rumble rest
      if filter_fn effect then
        (r.1, (if on_rumble then [((0 : Nat), (0 : Nat))] else []) ++ r.2)
      else
        (effect :: r.1, r.2)

/-- Source lines 197-230: dispatch of one event.
UI_FF_UPLOAD (lines 197-206) stores the effect under its id; UI_FF_ERASE
(lines 207-216) deactivates the active instances with the erased id but
NEVER erases the descriptor from ff_effects (there is no
ff_effects.erase call in the source); FF_GAIN (lines 217-218) clamps the
value into [0, MAX_GAIN]; any other EV_FF (lines 219-227) activates a
stored effect (silently dropped when the id is not in the map) or, on
value zero, deactivates every instance with that id; EV_LED does
nothing.  Returns the new state and the callback calls made. -/
def handle_event (on_rumble : Bool) (st : ListenerState) (ev : Event) (now : Nat) :
    ListenerState × List (Nat × Nat) :=
  match ev with
  | .ff_upload effect =>
      ({ st with ff_effects := map_insert_or_assign st.ff_effects effect.id effect }, [])
  | .ff_erase effect_id =>
      let r := remove_effects (fun effect => effect.effect_id == effect_id) on_rumble
        st.active_effects
      ({ st with active_effects := r.1 }, r.2)
  | .ff_gain value =>
      ({ st with current_gain := std_clamp value 0 (MAX_GAIN : Int) }, [])
  | .ff effect_id value =>
      if value ≠ 0 then
        match map_find st.ff_effects effect_id with
        | some effect =>
            ({ st with active_effects :=
                st.active_effects ++ [create_rumble_effect effect_id st.current_gain effect now] },
             [])
        | none => (st, [])
      else
        let r := remove_effects (fun effect => effect.effect_id == effect_id) on_rumble
          st.active_effects
        ({ st with active_effects := r.1 }, r.2)
  | .led => (st, [])

/-- The for-loop over the fetched events (source lines 196-231). -/
def handle_events (on_rumble : Bool) (st : ListenerState) (events : List Event) (now : Nat) :
    ListenerState × List (Nat × Nat) :=
  match events with
  | [] => (st, [])
  | ev :: rest =>
      let r := handle_event on_rumble st ev now
      let r' := handle_events on_rumble r.1 rest now
      (r'.1, r.2 ++ r'.2)

/-- Source lines 238-249.  The range-for at line 239 iterates over
active_effects BY VALUE (for (auto effect : active_effects)): each
iteration works on a copy, so the writes to effect.previous at lines
242-243 mutate the copy and are discarded; the stored list is observably
unchanged by this loop.  When the freshly simulated pair differs from the
(stored, never-updated) previous pair and the callback is present, the
callback is invoked with (strong, weak) in that argument order. -/
def simulate_pass (on_rumble : Bool) (effects : List ActiveRumbleEffect) (now : Nat) :
    List (Nat × Nat) :=
  match effects with
  | [] => []
  | effect :: rest =>
      let ws := simulate_rumble effect now
      (if effect.previous.1 ≠ ws.1 ∨ effect.previous.2 ≠ ws.2 then
         (if on_rumble then [(ws.2, ws.1)] else [])
       else []) ++ simulate_pass on_rumble rest now

/-- One iteration of the while loop (source lines 192-250): dispatch the
fetched events, remove the effects whose end_point has passed now (line
236, firing (0, 0) per removal through remove_effects), then run the
simulate pass over the survivors.  Returns the new state and all callback
calls of the iteration, in order.  The source samples
steady_clock::now() once per activation and once at line 233; the single
now parameter stands for the clock reading of this iteration. -/
def tick (on_rumble : Bool) (st : ListenerState) (events : List Event) (now : Nat) :
    ListenerState × List (Nat × Nat) :=
  let r1 := handle_events on_rumble st events now
  let r2 := remove_effects (fun effect => decide (effect.end_point ≤ now)) on_rumble
    r1.1.active_effects
  let st2 : ListenerState := { r1.1 with active_effects := r2.1 }
  let calls3 := simulate_pass on_rumble st2.active_effects now
  (st2, r1.2 ++ r2.2 ++ calls3)

/-- The sustain-phase formula exactly as the specification words it:
value = start + (end - start) * time_left / length, proportional to the
REMAINING time.  Stated for comparison with the source computation
(rumble_magnitude applied to the elapsed time). -/
def sustain_magnitude_spec (time_left : Nat) (start : Nat) (endMag : Nat) (length : Nat) : Nat :=
  start + (endMag - start) * time_left / length

/- Concrete instances used by the counterexamples and witnesses below.
All of them are produced by create_rumble_effect, i.e. they are genuine
activation-time instances. -/

/-- A rumble descriptor with weak = 100, strong = 200 and a 1000 ms
window, as in the specification example. -/
def rumble_descriptor : ff_effect :=
  { u := .ff_rumble 200 100, id := 7, replay := { length := 1000, delay := 0 } }

/-- The instance obtained by activating rumble_descriptor at time 0 with
gain MAX_GAIN. -/
def rumble_instance : ActiveRumbleEffect := create_rumble_effect 7 65535 rumble_descriptor 0

/-- A listener state holding the single active instance rumble_instance. -/
def one_effect_state : ListenerState :=
  { ff_effects := [], current_gain := 65535, active_effects := [rumble_instance] }

/-- A ramp descriptor from level 0 to level 1000 over 100 ms with an
empty envelope. -/
def ramp_descriptor : ff_effect :=
  { u := .ff_ramp 0 1000 { attack_length := 0, attack_level := 0, fade_length := 0, fade_level := 0 },
    id := 3, replay := { length := 100, delay := 0 } }

/-- The instance obtained by activating ramp_descriptor at time 0 with
gain MAX_GAIN. -/
def ramp_instance : ActiveRumbleEffect := create_rumble_effect 3 65535 ramp_descriptor 0

/-- A rumble descriptor whose replay length is 0 ms. -/
def zero_length_descriptor : ff_effect :=
  { u := .ff_rumble 200 100, id := 2, replay := { length := 0, delay := 0 } }

/-- The instance obtained by activating zero_length_descriptor at time 5:
its window is the single instant [5, 5]. -/
def zero_length_instance : ActiveRumbleEffect :=
  create_rumble_effect 2 65535 zero_length_descriptor 5

/-- C1: the control loop does NOT implement fire-only-on-change.  With a
single surviving active instance whose simulated (weak, strong) value is
the constant (100, 200) on two consecutive ticks, the loop invokes the
callback with (strong, weak) = (200, 100) on BOTH ticks: the range-for of
source line 239 iterates by value, so the update of the stored
last-reported pair at lines 242-243 is written to a discarded copy and
the stored pair stays (0, 0). -/
theorem tick_refires_on_unchanged_simulation :
    (tick true one_effect_state [] 10).2 = [(200, 100)] ∧
    (tick true (tick true one_effect_state [] 10).1 [] 30).2 = [(200, 100)] ∧
    simulate_rumble rumble_instance 10 = simulate_rumble rumble_instance 30 := by
  decide

/-- C2: erasing an id does not remove its descriptor from the effect
store.  After Upload(5, D), Activate(5) and Erase(5): the active instance
is removed and the (0, 0) callback fires once, but D is still stored
under id 5 (the erase branch at source lines 207-216 has no
ff_effects.erase call), and a subsequent Activate(5) still spawns a new
instance. -/
theorem erase_keeps_descriptor_in_store :
    (handle_event true
      ((handle_event true
        ((handle_event true initial_state (.ff_upload rumble_descriptor) 0).1)
        (.ff 7 1) 0).1)
      (.ff_erase 7) 0).1.active_effects = [] ∧
    (handle_event true
      ((handle_event true
        ((handle_event true initial_state (.ff_upload rumble_descriptor) 0).1)
        (.ff 7 1) 0).1)
      (.ff_erase 7) 0).2 = [(0, 0)] ∧
    map_find (handle_event true
      ((handle_event true
        ((handle_event true initial_state (.ff_upload rumble_descriptor) 0).1)
        (.ff 7 1) 0).1)
      (.ff_erase 7) 0).1.ff_effects 7 = some rumble_descriptor ∧
    (handle_event true (handle_event true
      ((handle_event true
        ((handle_event true initial_state (.ff_upload rumble_descriptor) 0).1)
        (.ff 7 1) 0).1)
      (.ff_erase 7) 0).1 (.ff 7 1) 20).1.active_effects =
        [create_rumble_effect 7 65535 rumble_descriptor 20] := by
  decide

/- Cast helpers relating the Int machine arithmetic of the embedding to
plain Nat arithmetic on non-negative operands. -/

theorem tdiv_natCast (a b : Nat) : Int.tdiv (a : Int) (b : Int) = ((a / b : Nat) : Int) := rfl

theorem toU32_natCast (a : Nat) : toU32 (a : Int) = a % U32 := rfl

/-- rumble_magnitude at a non-negative (Nat) time argument, in plain Nat
arithmetic: start + rel * t / length reduced modulo 2^32, where rel is
the wrapping uint32 difference end - start. -/
theorem rumble_magnitude_natCast (t s eM l : Nat) :
    rumble_magnitude (t : Int) s eM l = (s + toU32 ((eM : Int) - s) * t / l) % U32 := by
  simp only [rumble_magnitude]
  rw [show ((toU32 ((eM : Int) - s) : Nat) : Int) * (t : Int)
        = ((toU32 ((eM : Int) - s) * t : Nat) : Int) by push_cast; ring]
  rw [tdiv_natCast]
  rw [show ((s : Int) + ((toU32 ((eM : Int) - s) * t / l : Nat) : Int))
        = ((s + toU32 ((eM : Int) - s) * t / l : Nat) : Int) by push_cast; ring]
  rw [toU32_natCast]

/-- In the sustain window of a well-formed instance (end_point =
start_point + length), the phase value of each channel is
rumble_magnitude applied to the ELAPSED time now - start_point, spelled
out in Nat arithmetic. -/
theorem rumble_phase_sustain_eq (e : ActiveRumbleEffect) (now : Nat)
    (hwf : e.end_point = e.start_point + e.length)
    (h1 : e.start_point ≤ now) (h2 : now ≤ e.end_point)
    (hatk : e.envelope.attack_length ≤ now - e.start_point)
    (hfad : e.envelope.fade_length ≤ e.end_point - now) :
    rumble_phase e now =
      ((e.start_weak + toU32 ((e.end_weak : Int) - e.start_weak) * (now - e.start_point) / e.length) % U32,
       (e.start_strong + toU32 ((e.end_strong : Int) - e.start_strong) * (now - e.start_point) / e.length) % U32) := by
  have ht : (e.length : Int) - ((e.end_point - now : Nat) : Int) = ((now - e.start_point : Nat) : Int) := by
    omega
  simp only [rumble_phase, ht]
  rw [if_neg (by omega), if_neg (by omega)]
  rw [rumble_magnitude_natCast, rumble_magnitude_natCast]

/-- In the attack window of a well-formed instance, the phase value of
both channels is attack_level * t / attack_length at the elapsed time
t = now - start_point. -/
theorem rumble_phase_attack_eq (e : ActiveRumbleEffect) (now : Nat)
    (hwf : e.end_point = e.start_point + e.length)
    (h1 : e.start_point ≤ now) (h2 : now ≤ e.end_point)
    (hatk : now - e.start_point < e.envelope.attack_length) :
    rumble_phase e now =
      ((e.envelope.attack_level * (now - e.start_point) / e.envelope.attack_length) % U32,
       (e.envelope.attack_level * (now - e.start_point) / e.envelope.attack_length) % U32) := by
  have ht : (e.length : Int) - ((e.end_point - now : Nat) : Int) = ((now - e.start_point : Nat) : Int) := by
    omega
  simp only [rumble_phase, ht]
  rw [if_pos (by exact_mod_cast hatk)]
  rw [show ((e.envelope.attack_level : Int) * ((now - e.start_point : Nat) : Int) +
        ((0 : Nat) : Int) * ((e.envelope.attack_length : Int) - ((now - e.start_point : Nat) : Int)))
      = ((e.envelope.attack_level * (now - e.start_point) : Nat) : Int) by push_cast; ring]
  rw [tdiv_natCast, toU32_natCast]

/-- Survivors of remove_effects are exactly the effects the filter
rejects, in order. -/
theorem remove_effects_survivors (filter_fn : ActiveRumbleEffect → Bool) (on_rumble : Bool)
    (effects : List ActiveRumbleEffect) :
    (remove_effects filter_fn on_rumble effects).1 = effects.filter (fun e => !filter_fn e) := by
  induction effects with
  | nil => rfl
  | cons e rest ih =>
      by_cases h : filter_fn e <;>
        simp [remove_effects, h, ih, List.filter_cons]

/-- With the callback present, remove_effects makes exactly one (0, 0)
call per removed element. -/
theorem remove_effects_calls (filter_fn : ActiveRumbleEffect → Bool)
    (effects : List ActiveRumbleEffect) :
    (remove_effects filter_fn true effects).2 =
      (effects.filter filter_fn).map (fun _ => ((0 : Nat), (0 : Nat))) := by
  induction effects with
  | nil => rfl
  | cons e rest ih =>
      by_cases h : filter_fn e <;>
        simp [remove_effects, h, ih, List.filter_cons]

/-- C3 counterexample: the sustain-phase value is NOT
start + (end - start) * time_left / length.  For the activated ramp
instance (start 0, end 1000, length 100 ms) at now = 20 (sustain phase,
time_left = 80), the source computes 0 + 1000 * 20 / 100 = 200 — it
passes the elapsed time t = 20 to rumble_magnitude — while the formula of
the specification gives 0 + 1000 * 80 / 100 = 800. -/
theorem sustain_not_remaining_time_counterexample :
    ramp_instance.start_point = 0 ∧ ramp_instance.end_point = 100 ∧
    ramp_instance.envelope.attack_length = 0 ∧ ramp_instance.envelope.fade_length = 0 ∧
    (rumble_phase ramp_instance 20).1 = 200 ∧
    sustain_magnitude_spec (100 - 20) ramp_instance.start_weak ramp_instance.end_weak
      ramp_instance.length = 800 ∧
    (rumble_phase ramp_instance 20).1 ≠
      sustain_magnitude_spec (100 - 20) ramp_instance.start_weak ramp_instance.end_weak
        ramp_instance.length := by
  decide

/-- C3 (amended): in the sustain phase, the pre-gain value of each
channel equals start + (end - start) * t / length computed in the machine
arithmetic of the source (uint32 wrapping difference, int64 product and
quotient, uint32 result), where t = length - time_left = now -
start_point is the ELAPSED time — the interpolation is proportional to
elapsed time and moves from the start magnitude toward the end magnitude,
not the reverse. -/
theorem sustain_interpolates_elapsed_time (e : ActiveRumbleEffect) (now : Nat)
    (hwf : e.end_point = e.start_point + e.length)
    (hlen : 0 < e.length)
    (h1 : e.start_point ≤ now) (h2 : now ≤ e.end_point)
    (hatk : e.envelope.attack_length ≤ now - e.start_point)
    (hfad : e.envelope.fade_length ≤ e.end_point - now) :
    rumble_phase e now =
      ((e.start_weak + toU32 ((e.end_weak : Int) - e.start_weak) * (now - e.start_point) / e.length) % U32,
       (e.start_strong + toU32 ((e.end_strong : Int) - e.start_strong) * (now - e.start_point) / e.length) % U32) :=
  rumble_phase_sustain_eq e now hwf h1 h2 hatk hfad

/-- Witness for C3 at the concrete ramp instance and now = 20. -/
theorem sustain_interpolates_elapsed_time_witness :
    rumble_phase ramp_instance 20 =
      ((ramp_instance.start_weak +
          toU32 ((ramp_instance.end_weak : Int) - ramp_instance.start_weak) *
            (20 - ramp_instance.start_point) / ramp_instance.length) % U32,
       (ramp_instance.start_strong +
          toU32 ((ramp_instance.end_strong : Int) - ramp_instance.start_strong) *
            (20 - ramp_instance.start_point) / ramp_instance.length) % U32) :=
  sustain_interpolates_elapsed_time ramp_instance 20 (by decide) (by decide) (by decide)
    (by decide) (by decide) (by decide)

/-- C4 counterexample: the sustain division is not guarded against
length = 0.  The genuine activated instance of a descriptor with replay
length 0 (window [5, 5], empty envelope) makes simulate_rumble reach the
division by length = 0 inside rumble_magnitude at now = 5. -/
theorem div_by_zero_at_zero_length_instant :
    simulate_div_by_zero zero_length_instance 5 = true ∧
    zero_length_instance.end_point = zero_length_instance.start_point + zero_length_instance.length ∧
    zero_length_instance.length = 0 := by
  decide

/-- C4 (amended): for a well-formed instance (end_point = start_point +
length, as produced by create_rumble_effect), the simulation reaches no
division by zero whenever length is positive or now differs from
end_point: a zero attack window never enters the attack branch (its
condition t < 0 is unsatisfiable), a zero fade window never enters the
fade branch (time_left is never negative), and the unguarded sustain
division by length is reached with length = 0 only in the single state
now = start_point = end_point — which the control loop never simulates,
since it first removes every effect with end_point less than or equal to
now. -/
theorem no_div_by_zero_off_endpoint (e : ActiveRumbleEffect) (now : Nat)
    (hwf : e.end_point = e.start_point + e.length)
    (h : 0 < e.length ∨ now ≠ e.end_point) :
    simulate_div_by_zero e now = false := by
  simp only [simulate_div_by_zero]
  split_ifs with hwin hatk hfad
  · rfl
  · simp only [decide_eq_false_iff_not]
    omega
  · simp only [decide_eq_false_iff_not]
    omega
  · simp only [decide_eq_false_iff_not]
    omega

/-- Witness for C4 at the concrete rumble instance (length 1000 ms) and
now = 10. -/
theorem no_div_by_zero_off_endpoint_witness :
    simulate_div_by_zero rumble_instance 10 = false :=
  no_div_by_zero_off_endpoint rumble_instance 10 (by decide) (Or.inl (by decide))

/-- C5: with the callback present, every removal path — explicit
deactivation (EV_FF with value 0), erase, and the natural-expiry sweep
(end_point has passed now) — goes through remove_effects, which makes
exactly one (0, 0) call per removed instance; in particular a
deactivation removes every instance whose effect_id matches and calls
(0, 0) once for each of them. -/
theorem removal_fires_zero_pair_once_per_removed
    (filter_fn : ActiveRumbleEffect → Bool) (st : ListenerState) (effect_id : Int) (now : Nat)
    (effects : List ActiveRumbleEffect) :
    (remove_effects filter_fn true effects).2 =
      (effects.filter filter_fn).map (fun _ => ((0 : Nat), (0 : Nat))) ∧
    (remove_effects filter_fn true effects).2.length = (effects.filter filter_fn).length ∧
    (handle_event true st (.ff effect_id 0) now).2 =
      (st.active_effects.filter (fun e => e.effect_id == effect_id)).map
        (fun _ => ((0 : Nat), (0 : Nat))) ∧
    (handle_event true st (.ff effect_id 0) now).1.active_effects =
      st.active_effects.filter (fun e => !(e.effect_id == effect_id)) ∧
    (handle_event true st (.ff_erase effect_id) now).2 =
      (st.active_effects.filter (fun e => e.effect_id == effect_id)).map
        (fun _ => ((0 : Nat), (0 : Nat))) ∧
    (remove_effects (fun e => decide (e.end_point ≤ now)) true st.active_effects).2 =
      (st.active_effects.filter (fun e => decide (e.end_point ≤ now))).map
        (fun _ => ((0 : Nat), (0 : Nat))) := by
  refine ⟨remove_effects_calls filter_fn effects,
    by rw [remove_effects_calls filter_fn effects]; simp,
    ?_, ?_, ?_, remove_effects_calls _ st.active_effects⟩
  · simp [handle_event, remove_effects_calls]
  · simp [handle_event, remove_effects_survivors]
  · simp [handle_event, remove_effects_calls]

/-- C6: an FF_GAIN event stores the clamped value (inside [0, 65535]) as
the current gain, leaves the effect store and every already-active
instance untouched (so their captured gains are unchanged and their
simulated outputs, functions of instance and time only, are unchanged),
and fires no callback; an activation arriving after the change captures
the new clamped gain. -/
theorem set_gain_clamps_and_is_not_retroactive
    (on_rumble : Bool) (st : ListenerState) (value : Int) (now now2 : Nat) (effect_id : Int) :
    (handle_event on_rumble st (.ff_gain value) now).1.current_gain =
      std_clamp value 0 (MAX_GAIN : Int) ∧
    (0 : Int) ≤ std_clamp value 0 (MAX_GAIN : Int) ∧
    std_clamp value 0 (MAX_GAIN : Int) ≤ 65535 ∧
    (handle_event on_rumble st (.ff_gain value) now).1.active_effects = st.active_effects ∧
    (handle_event on_rumble st (.ff_gain value) now).1.ff_effects = st.ff_effects ∧
    (handle_event on_rumble st (.ff_gain value) now).2 = [] ∧
    (∀ d, map_find st.ff_effects effect_id = some d →
      (handle_event on_rumble (handle_event on_rumble st (.ff_gain value) now).1
          (.ff effect_id 1) now2).1.active_effects =
        st.active_effects ++
          [create_rumble_effect effect_id (std_clamp value 0 (MAX_GAIN : Int)) d now2]) := by
  refine ⟨rfl, ?_, ?_, rfl, rfl, rfl, ?_⟩
  · simp only [std_clamp]
    split_ifs <;> omega
  · simp only [std_clamp, MAX_GAIN]
    split_ifs <;> omega
  · intro d hd
    simp [handle_event, hd]

/-- The state after uploading rumble_descriptor into the fresh listener
state. -/
def uploaded_state : ListenerState :=
  (handle_event true initial_state (.ff_upload rumble_descriptor) 0).1

/-- Witness for C6: clamp of 123456 and activation after the gain change
capturing the clamped gain. -/
theorem set_gain_clamps_witness :
    (handle_event true uploaded_state (.ff_gain 123456) 0).1.current_gain =
      std_clamp 123456 0 (MAX_GAIN : Int) ∧
    (handle_event true (handle_event true uploaded_state (.ff_gain 123456) 0).1
        (.ff 7 1) 20).1.active_effects =
      uploaded_state.active_effects ++
        [create_rumble_effect 7 (std_clamp 123456 0 (MAX_GAIN : Int)) rumble_descriptor 20] := by
  have h := set_gain_clamps_and_is_not_retroactive true uploaded_state 123456 0 20 7
  exact ⟨h.1, h.2.2.2.2.2.2 rumble_descriptor (by decide)⟩

/-- C7: the global gain is applied after the phase computation,
multiplicatively and independently per channel, as
value * gain / MAX_GAIN in uint32 arithmetic; a captured gain of 0 forces
the simulated output to (0, 0) at every time, whatever the magnitudes and
envelope. -/
theorem gain_applied_after_phase_and_zero_gain (e : ActiveRumbleEffect) (now : Nat) :
    (¬(e.end_point < now ∨ now < e.start_point) →
      simulate_rumble e now =
        ((rumble_phase e now).1 * toU32 e.gain % U32 / MAX_GAIN,
         (rumble_phase e now).2 * toU32 e.gain % U32 / MAX_GAIN)) ∧
    (e.gain = 0 → simulate_rumble e now = (0, 0)) := by
  constructor
  · intro h
    simp [simulate_rumble, h]
  · intro h
    by_cases hwin : e.end_point < now ∨ now < e.start_point
    · simp [simulate_rumble, hwin]
    · have h0 : toU32 0 = 0 := rfl
      simp [simulate_rumble, hwin, h, h0]

/-- The instance obtained by activating rumble_descriptor with a captured
gain of 0. -/
def gain0_instance : ActiveRumbleEffect := create_rumble_effect 7 0 rumble_descriptor 0

/-- Witness for C7: gain 0 silences the rumble instance, and the gain
step factors through the phase value at now = 10. -/
theorem gain_applied_witness :
    simulate_rumble gain0_instance 10 = (0, 0) ∧
    simulate_rumble rumble_instance 10 =
      ((rumble_phase rumble_instance 10).1 * toU32 rumble_instance.gain % U32 / MAX_GAIN,
       (rumble_phase rumble_instance 10).2 * toU32 rumble_instance.gain % U32 / MAX_GAIN) :=
  ⟨(gain_applied_after_phase_and_zero_gain gain0_instance 10).2 (by decide),
   (gain_applied_after_phase_and_zero_gain rumble_instance 10).1 (by decide)⟩

/-- C8: activating an id with no descriptor in the store changes nothing
and raises nothing (silent drop), and any instance present after an
activation either was already active or was created from a descriptor
found in the store at activation time (with the current gain captured). -/
theorem activate_unknown_id_silent_drop
    (on_rumble : Bool) (st : ListenerState) (effect_id : Int) (value : Int) (now : Nat) :
    (map_find st.ff_effects effect_id = none → value ≠ 0 →
      handle_event on_rumble st (.ff effect_id value) now = (st, [])) ∧
    (∀ e, value ≠ 0 →
      e ∈ (handle_event on_rumble st (.ff effect_id value) now).1.active_effects →
      e ∈ st.active_effects ∨
        ∃ d, map_find st.ff_effects effect_id = some d ∧
          e = create_rumble_effect effect_id st.current_gain d now) := by
  constructor
  · intro hnone hv
    simp [handle_event, hv, hnone]
  · intro e hv hmem
    rcases hfind : map_find st.ff_effects effect_id with _ | d
    · simp [handle_event, hv, hfind] at hmem
      exact Or.inl hmem
    · simp [handle_event, hv, hfind] at hmem
      rcases hmem with h | h
      · exact Or.inl h
      · exact Or.inr ⟨d, rfl, h⟩

/-- Witness for C8: activating the absent id 42 in the fresh state is a
no-op, and after activating it in a one-effect state the surviving
instance was already active. -/
theorem activate_unknown_id_witness :
    handle_event true initial_state (.ff 42 1) 0 = (initial_state, []) ∧
    (rumble_instance ∈ one_effect_state.active_effects ∨
      ∃ d, map_find one_effect_state.ff_effects 42 = some d ∧
        rumble_instance = create_rumble_effect 42 one_effect_state.current_gain d 0) :=
  ⟨(activate_unknown_id_silent_drop true initial_state 42 1 0).1 (by decide) (by decide),
   (activate_unknown_id_silent_drop true one_effect_state 42 1 0).2 rumble_instance
     (by decide) (by decide)⟩

/-- C9: halfway through an even attack window of width A = 2k > 0, with
the maximal captured gain, the simulated magnitude of both channels is
attack_level * k / (2k) = attack_level / 2 — the floor of
attack_level * 0.5, i.e. attack_level * 0.5 within integer rounding,
identically on the weak and strong channels.  The bound
attack_level <= 65535 is the __u16 range of the envelope field. -/
theorem attack_halfway_reports_half_level (e : ActiveRumbleEffect) (k : Nat)
    (hA : e.envelope.attack_length = 2 * k) (hk : 0 < k)
    (hlvl : e.envelope.attack_level ≤ 65535)
    (hg : e.gain = (MAX_GAIN : Int))
    (hwf : e.end_point = e.start_point + e.length)
    (hlen : k ≤ e.length) :
    simulate_rumble e (e.start_point + k) =
      (e.envelope.attack_level / 2, e.envelope.attack_level / 2) := by
  have hwin : ¬(e.end_point < e.start_point + k ∨ e.start_point + k < e.start_point) := by
    omega
  have hphase := rumble_phase_attack_eq e (e.start_point + k) hwf (by omega) (by omega)
    (by omega)
  rw [show e.start_point + k - e.start_point = k from by omega] at hphase
  have hval : e.envelope.attack_level * k / e.envelope.attack_length % U32 =
      e.envelope.attack_level / 2 := by
    rw [hA, Nat.mul_div_mul_right e.envelope.attack_level 2 hk]
    rw [Nat.mod_eq_of_lt (by simp only [U32]; omega)]
  have hgain : toU32 e.gain = 65535 := by
    rw [hg]; decide
  simp only [simulate_rumble, if_neg hwin, hphase, hval, hgain]
  have hhalf : e.envelope.attack_level / 2 ≤ 32767 := by omega
  rw [Nat.mod_eq_of_lt (show e.envelope.attack_level / 2 * 65535 < U32 from by
    simp only [U32]; omega)]
  rw [show MAX_GAIN = 65535 from rfl, Nat.mul_div_cancel _ (by omega)]

/-- A constant descriptor with level 300 and an attack envelope of width
10 ms and level 101, over a 50 ms window. -/
def attack_descriptor : ff_effect :=
  { u := .ff_constant 300 { attack_length := 10, attack_level := 101, fade_length := 0, fade_level := 0 },
    id := 4, replay := { length := 50, delay := 0 } }

/-- The instance obtained by activating attack_descriptor at time 0 with
gain MAX_GAIN. -/
def attack_instance : ActiveRumbleEffect := create_rumble_effect 4 65535 attack_descriptor 0

/-- Witness for C9: halfway through the 10 ms attack window (k = 5) the
odd attack level 101 is reported as 50 = floor(101 * 0.5) on both
channels. -/
theorem attack_halfway_witness :
    simulate_rumble attack_instance (attack_instance.start_point + 5) =
      (attack_instance.envelope.attack_level / 2, attack_instance.envelope.attack_level / 2) :=
  attack_halfway_reports_half_level attack_instance 5 (by decide) (by decide) (by decide)
    (by decide) (by decide) (by decide)

/-- The envelope with all four fields zero. -/
def empty_envelope : ff_envelope :=
  { attack_length := 0, attack_level := 0, fade_length := 0, fade_level := 0 }

/-- A constant descriptor with the negative level -1 and an empty
envelope over a 100 ms window. -/
def neg_one_descriptor : ff_effect :=
  { u := .ff_constant (-1) empty_envelope, id := 9, replay := { length := 100, delay := 0 } }

/-- The instance obtained by activating neg_one_descriptor at time 0 with
gain MAX_GAIN: its four magnitude fields are all 4294967295. -/
def neg_one_instance : ActiveRumbleEffect := create_rumble_effect 9 65535 neg_one_descriptor 0

/-- C10: the start and end magnitude fields are uint32 values assigned
from the signed 16-bit levels of constant, periodic and ramp descriptors,
so a negative level L is stored as its two's-complement value
2^32 + L; and the subsequent arithmetic stays modulo 2^32 — for the
activated constant effect of level -1 (stored magnitude 4294967295) the
simulated sustain output at gain MAX_GAIN is 65536 per channel
(4294967295 * 65535 mod 2^32 = 4294901761, divided by 65535), not a value
derived from a clamped or absolute magnitude. -/
theorem negative_levels_wrap_mod_two_pow_32 (L E did effect_id effect_gain : Int)
    (env : ff_envelope) (rp : ff_replay) (now : Nat)
    (hneg : L < 0) (hrange : -32768 ≤ L) :
    ((create_rumble_effect effect_id effect_gain
        { u := .ff_constant L env, id := did, replay := rp } now).start_weak,
     (create_rumble_effect effect_id effect_gain
        { u := .ff_constant L env, id := did, replay := rp } now).start_strong,
     (create_rumble_effect effect_id effect_gain
        { u := .ff_constant L env, id := did, replay := rp } now).end_weak,
     (create_rumble_effect effect_id effect_gain
        { u := .ff_constant L env, id := did, replay := rp } now).end_strong) =
      ((4294967296 + L).toNat, (4294967296 + L).toNat,
       (4294967296 + L).toNat, (4294967296 + L).toNat) ∧
    ((create_rumble_effect effect_id effect_gain
        { u := .ff_periodic L env, id := did, replay := rp } now).start_weak,
     (create_rumble_effect effect_id effect_gain
        { u := .ff_periodic L env, id := did, replay := rp } now).end_strong) =
      ((4294967296 + L).toNat, (4294967296 + L).toNat) ∧
    ((create_rumble_effect effect_id effect_gain
        { u := .ff_ramp L E env, id := did, replay := rp } now).start_weak,
     (create_rumble_effect effect_id effect_gain
        { u := .ff_ramp L E env, id := did, replay := rp } now).start_strong) =
      ((4294967296 + L).toNat, (4294967296 + L).toNat) ∧
    neg_one_instance.start_weak = 4294967295 ∧
    simulate_rumble neg_one_instance 50 = (65536, 65536) := by
  have hL : toU32 L = (4294967296 + L).toNat := by
    show (L % (4294967296 : Int)).toNat = (4294967296 + L).toNat
    omega
  refine ⟨?_, ?_, ?_, by decide, by decide⟩ <;>
    simp [create_rumble_effect, hL]

/-- Witness for C10 at the concrete level L = -1. -/
theorem negative_levels_witness :
    ((create_rumble_effect 9 65535
        { u := .ff_constant (-1) empty_envelope, id := 9,
          replay := { length := 100, delay := 0 } } 0).start_weak,
     (create_rumble_effect 9 65535
        { u := .ff_constant (-1) empty_envelope, id := 9,
          replay := { length := 100, delay := 0 } } 0).start_strong,
     (create_rumble_effect 9 65535
        { u := .ff_constant (-1) empty_envelope, id := 9,
          replay := { length := 100, delay := 0 } } 0).end_weak,
     (create_rumble_effect 9 65535
        { u := .ff_constant (-1) empty_envelope, id := 9,
          replay := { length := 100, delay := 0 } } 0).end_strong) =
      ((4294967296 + (-1 : Int)).toNat, (4294967296 + (-1 : Int)).toNat,
       (4294967296 + (-1 : Int)).toNat, (4294967296 + (-1 : Int)).toNat) ∧
    simulate_rumble neg_one_instance 50 = (65536, 65536) := by
  have h := negative_levels_wrap_mod_two_pow_32 (-1) 0 9 9 65535 empty_envelope
    { length := 100, delay := 0 } 0 (by decide) (by decide)
  exact ⟨h.1, h.2.2.2.2⟩

end inputtino
